import Mathlib

/-!
Shallow embedding of `src/backend/persistence.rs` from the `toy-blog`
repository: a file-backed key-value store for `Article` records, whose
operations are whole-document read / modify / write cycles on one JSON file.

Modelling decisions, each tied to the source:

* `ArticleId`, `Article`, `FileScheme` mirror the Rust structs.  The Rust
  `created_at : DateTime<Local>` is embedded as the rendered timestamp text
  (chrono serializes it as an RFC3339 string, which never needs JSON
  escaping); every mutating operation takes the clock reading `now` as an
  explicit argument.
* The Rust `HashMap<ArticleId, Article>` is embedded as an association list
  with unique keys.  serde serializes a `HashMap` in an unspecified order;
  the association-list order fixes one such order.  The byte length of the
  serialized document does not depend on entry order, so all length
  reasoning below is order-independent.
* `serFileScheme` reproduces `serde_json::to_string` character by character
  for this data model (compact separators, struct fields in declaration
  order, newtype `ArticleId` serialized as its inner string, strings escaped
  as serde_json escapes them).  Positions and lengths are measured in
  characters, which coincides with bytes for ASCII data.
* The bytes on disk are abstracted by `FileBytes`: either exactly the
  serialization of a document, or that serialization followed by a positive
  number of stale trailing characters left over from an earlier, longer
  write.  serde_json's `from_str` rejects any input with non-whitespace
  material after the first JSON value, and a compact-JSON suffix always
  contains at least the final two closing braces, so a `garbled` file never
  parses; `parse_file_as_json` reflects that.
* File open / read / UTF-8 failures are environmental (permissions, disk
  errors) and are not modelled: the embedded operations assume the syscalls
  succeed, exactly as the claims under study do.
-/

/-- Mirrors `struct ArticleId(String)`. -/
structure ArticleId where
  raw : String
deriving DecidableEq, Repr

/-- Mirrors `struct Article \x7b created_at, content, id \x7d`; `created_at`
holds the rendered timestamp text. -/
structure Article where
  created_at : String
  content : String
  id : ArticleId
deriving DecidableEq, Repr

/-- The document: association-list embedding of `HashMap<ArticleId, Article>`. -/
abbrev Doc := List (ArticleId × Article)

/-- Mirrors `struct FileScheme \x7b data: HashMap<ArticleId, Article> \x7d`. -/
structure FileScheme where
  data : Doc
deriving DecidableEq, Repr

/-- Mirrors `FileScheme::empty()`. -/
def FileScheme.empty : FileScheme := ⟨[]⟩

/-- Insert or replace the binding for `k`, as `HashMap::insert` does. -/
def insertEntry (k : ArticleId) (v : Article) : Doc → Doc
  | [] => [(k, v)]
  | (k1, v1) :: rest =>
      if k1 = k then (k, v) :: rest else (k1, v1) :: insertEntry k v rest

/-- Drop the binding for `k` if present, as `HashMap::remove` does. -/
def removeEntry (k : ArticleId) (d : Doc) : Doc :=
  d.filter (fun p => if p.1 = k then false else true)

/-- First binding for `k`, as `HashMap::get` does. -/
def lookupEntry (k : ArticleId) : Doc → Option Article
  | [] => none
  | (k1, v) :: rest => if k1 = k then some v else lookupEntry k rest

/-- Membership test, as `HashMap::contains_key` does. -/
def containsKey (k : ArticleId) (d : Doc) : Bool :=
  (lookupEntry k d).isSome

/-- An opening brace as a string. -/
def obr : String := "\x7b"

/-- A closing brace as a string. -/
def cbr : String := "\x7d"

/-- Lower-case hex digit, used by serde_json's `\u00XX` control escapes. -/
def hexDigit (n : Nat) : Char :=
  if n < 10 then Char.ofNat (48 + n) else Char.ofNat (87 + n)

/-- serde_json's escaping of one character inside a JSON string literal:
quote and backslash get a backslash, the short-escape control characters use
their two-character forms, the remaining control characters use `\u00XX`,
everything else (including non-ASCII) is emitted unchanged. -/
def escChar (c : Char) : String :=
  if c = '"' then "\\\""
  else if c = '\\' then "\\\\"
  else if c = Char.ofNat 8 then "\\b"
  else if c = Char.ofNat 12 then "\\f"
  else if c = '\n' then "\\n"
  else if c = '\r' then "\\r"
  else if c = '\t' then "\\t"
  else if c.toNat < 32 then
    String.mk ['\\', 'u', '0', '0', hexDigit (c.toNat / 16), hexDigit (c.toNat % 16)]
  else String.singleton c

/-- serde_json's escaping of a whole string. -/
def jsonEscape (s : String) : String :=
  String.join (s.data.map escChar)

/-- Quoted JSON string literal. -/
def jsonStr (s : String) : String :=
  "\"" ++ jsonEscape s ++ "\""

/-- Serialization of one `Article`, fields in Rust declaration order;
`created_at` is the rendered timestamp, never containing escapable
characters, emitted as chrono's serde implementation does. -/
def serArticle (a : Article) : String :=
  obr ++ "\"created_at\":\"" ++ a.created_at ++ "\",\"content\":"
      ++ jsonStr a.content ++ ",\"id\":" ++ jsonStr a.id.raw ++ cbr

/-- Serialization of the map entries, comma separated. -/
def serEntries : Doc → String
  | [] => ""
  | [(k, a)] => jsonStr k.raw ++ ":" ++ serArticle a
  | (k, a) :: rest => jsonStr k.raw ++ ":" ++ serArticle a ++ "," ++ serEntries rest

/-- Character-exact model of `serde_json::to_string(&file_scheme)`. -/
def serFileScheme (fs : FileScheme) : String :=
  obr ++ "\"data\":" ++ obr ++ serEntries fs.data ++ cbr ++ cbr

/-- Abstraction of the bytes in the backing file: `exact d` is precisely
`serFileScheme d`; `garbled d extra` is `serFileScheme d` followed by
`extra + 1` stale characters surviving from an earlier, longer write. -/
inductive FileBytes where
  | exact (d : FileScheme)
  | garbled (d : FileScheme) (extra : Nat)
deriving DecidableEq, Repr

/-- Length in characters of the bytes in the file. -/
def fileLen : FileBytes → Nat
  | .exact d => (serFileScheme d).length
  | .garbled d extra => (serFileScheme d).length + (extra + 1)

/-- The document whose serialization forms the leading bytes of the file. -/
def docOf : FileBytes → Doc
  | .exact d => d.data
  | .garbled d _ => d.data

/-- Error taxonomy of the repository, one constructor per distinct
construction site of an error in the source: file open failure, UTF-8
validation failure (`context("utf8 verify")`), serde decode failure
(`context("reading json file")`), and the absent-id failure built in
`read_snapshot` (`context("read_snapshot: failed to get ...")`). -/
inductive RepoError where
  | ioError
  | utf8Error
  | decodeError
  | notFound
deriving DecidableEq, Repr

/-- Mirrors `ArticleRepository::parse_file_as_json`: read the whole file and
`serde_json::from_str` it.  A file holding exactly a serialized document
parses back to it; a file with stale trailing characters fails `from_str`
with a trailing-characters error, surfaced as the decode error. -/
def parse_file_as_json : FileBytes → Except RepoError FileScheme
  | .exact d => .ok d
  | .garbled _ _ => .error .decodeError

/-- Writing `serFileScheme a` from position 0 into a file opened with
`write(true)` and no truncation: stale characters of the previous, longer
content survive past the newly written prefix. -/
def writeNoTruncate (a : FileScheme) (old : FileBytes) : FileBytes :=
  if (serFileScheme a).length < fileLen old then
    .garbled a (fileLen old - (serFileScheme a).length - 1)
  else
    .exact a

/-- Mirrors `file.set_len(json.len())` right after the same `json` was
written at position 0: whatever stale tail survived the write is cut off. -/
def setLenToWritten (f : FileBytes) : FileBytes :=
  match f with
  | .exact d => .exact d
  | .garbled d _ => .exact d

/-- Mirrors `ArticleRepository::set_entry`: parse the current document under
the read lock, insert the record (freshly captured timestamp `now`, the
given content, and the id itself), then `serde_json::to_writer` over the old
content without truncating.  Returns the result paired with the new file
state; on a parse failure the file is untouched. -/
def set_entry (st : FileBytes) (article_id : ArticleId) (article_content : String)
    (now : String) : Except RepoError Unit × FileBytes :=
  match parse_file_as_json st with
  | .error e => (.error e, st)
  | .ok a =>
      let a1 : FileScheme :=
        ⟨insertEntry article_id
          { created_at := now, content := article_content, id := article_id } a.data⟩
      (.ok (), writeNoTruncate a1 st)

/-- Mirrors `ArticleRepository::read_snapshot`: parse, look the id up, clone
it out; an absent id becomes the not-found error. -/
def read_snapshot (st : FileBytes) (article_id : ArticleId) :
    Except RepoError Article × FileBytes :=
  match parse_file_as_json st with
  | .error e => (.error e, st)
  | .ok a =>
      match lookupEntry article_id a.data with
      | some art => (.ok art, st)
      | none => (.error .notFound, st)

/-- Mirrors `ArticleRepository::exists`: parse and report key membership. -/
def existsEntry (st : FileBytes) (article_id : ArticleId) :
    Except RepoError Bool × FileBytes :=
  match parse_file_as_json st with
  | .error e => (.error e, st)
  | .ok a => (.ok (containsKey article_id a.data), st)

/-- Mirrors `ArticleRepository::remove`: parse, drop the id, write the new
serialization over the old content, then truncate the file to exactly the
written length (`file.set_len(json.len())`). -/
def remove (st : FileBytes) (article_id : ArticleId) :
    Except RepoError Unit × FileBytes :=
  match parse_file_as_json st with
  | .error e => (.error e, st)
  | .ok a =>
      let a1 : FileScheme := ⟨removeEntry article_id a.data⟩
      (.ok (), setLenToWritten (writeNoTruncate a1 st))

/-- Mirrors `ArticleRepository::create_default_file_if_absent`, the file at
the constructor's path being modelled as `Option String` (absent or its
content): an absent file is created holding the serialized empty scheme; an
existing file is left untouched. -/
def create_default_file_if_absent : Option String → Option String
  | none => some (serFileScheme FileScheme.empty)
  | some content => some content

/-- Mirrors `ArticleRepository::new` as far as the filesystem is concerned:
it only calls `create_default_file_if_absent` on the path. -/
def newRepoFile (fs : Option String) : Option String :=
  create_default_file_if_absent fs

/-!
Lock-and-I/O event traces.  `set_entry` and `remove` both start by calling
`parse_file_as_json`, which opens the file read-only, takes the `RwLock` in
shared mode (`get_read_handle` evaluates the open before `lock.read()`),
reads and decodes, and drops the read guard when it returns.  Only then does
the mutating method call `get_write_handle` (again: file open first, then
`lock.write()`), mutate the decoded map in memory, and serialize it back,
holding the write guard until the method returns.  The traces below record
that event order; the `heldAt` scan answers whether a given lock is held
when a given event occurs.
-/

/-- Events appearing in one repository call, in program order. -/
inductive LockEvent where
  | openFileRead
  | acquireReadLock
  | readBytes
  | decodeJson
  | releaseReadLock
  | openFileWrite
  | acquireWriteLock
  | mutateInMemory
  | encodeAndWrite
  | truncateFile
  | releaseWriteLock
deriving DecidableEq, Repr

/-- Event order of `parse_file_as_json` (lines 106-118 of the source). -/
def parseFileTrace : List LockEvent :=
  [.openFileRead, .acquireReadLock, .readBytes, .decodeJson, .releaseReadLock]

/-- Event order of `set_entry` (lines 47-67): parse under the read lock,
then open/lock for writing, mutate, serialize out; no truncation. -/
def setEntryTrace : List LockEvent :=
  parseFileTrace ++
    [.openFileWrite, .acquireWriteLock, .mutateInMemory, .encodeAndWrite,
     .releaseWriteLock]

/-- Event order of `remove` (lines 81-104): like `set_entry` but with the
explicit `set_len` truncation before the write guard is dropped. -/
def removeTrace : List LockEvent :=
  parseFileTrace ++
    [.openFileWrite, .acquireWriteLock, .mutateInMemory, .encodeAndWrite,
     .truncateFile, .releaseWriteLock]

/-- Scan a trace and report whether the lock delimited by `acq`/`rel` is
held at the first occurrence of event `e`. -/
def heldAt (acq rel e : LockEvent) : List LockEvent → Bool → Bool
  | [], _ => false
  | ev :: rest, held =>
      if ev = e then held
      else heldAt acq rel e rest
        (if ev = acq then true else if ev = rel then false else held)

/-- Is the exclusive (write) side of the `RwLock` held when `e` happens? -/
def writeLockHeldDuring (tr : List LockEvent) (e : LockEvent) : Bool :=
  heldAt .acquireWriteLock .releaseWriteLock e tr false

/-- Is the shared (read) side of the `RwLock` held when `e` happens? -/
def readLockHeldDuring (tr : List LockEvent) (e : LockEvent) : Bool :=
  heldAt .acquireReadLock .releaseReadLock e tr false

/-!
Concrete scenario states, each built only by repository operations from the
freshly constructed empty store.
-/

/-- Identifier used by the concrete scenarios. -/
def aId : ArticleId := ⟨"a"⟩

/-- Second identifier used by the concrete scenarios. -/
def bId : ArticleId := ⟨"b"⟩

/-- The file as the constructor leaves it: the serialized empty scheme. -/
def emptyState : FileBytes := .exact FileScheme.empty

/-- After inserting article `a` with a ten-character content. -/
def longState : FileBytes := (set_entry emptyState aId "xxxxxxxxxx" "T").2

/-- After then overwriting article `a` with a one-character content: the new
serialization is strictly shorter than the bytes already on disk. -/
def shrunkState : FileBytes := (set_entry longState aId "x" "U").2

/-- After instead adding a short sibling article `b` next to the long `a`. -/
def siblingState : FileBytes := (set_entry longState bId "y" "V").2

/-- After then removing the longer sibling `a` via `remove`. -/
def siblingRemovedState : FileBytes := (remove siblingState aId).2

/-- States reachable from the freshly constructed store by repository
operations (the constructor writes the empty scheme; every later write goes
through `set_entry` or `remove`). -/
inductive Reachable : FileBytes → Prop where
  | init : Reachable (.exact FileScheme.empty)
  | set (st : FileBytes) (id : ArticleId) (content now : String) :
      Reachable st → Reachable (set_entry st id content now).2
  | rem (st : FileBytes) (id : ArticleId) :
      Reachable st → Reachable (remove st id).2

/-- Every binding of the document stores an article whose `id` field equals
its mapping key. -/
def keysMirrorIds (d : Doc) : Prop := ∀ p ∈ d, p.2.id = p.1

/-- Truncating to the length of the just-written serialization always leaves
the file holding exactly that serialization. -/
theorem setLenToWritten_writeNoTruncate (a : FileScheme) (st : FileBytes) :
    setLenToWritten (writeNoTruncate a st) = .exact a := by
  unfold writeNoTruncate
  split <;> rfl

/-- The document at the head of the file after an untruncated write is the
document just written. -/
theorem docOf_writeNoTruncate (a : FileScheme) (st : FileBytes) :
    docOf (writeNoTruncate a st) = a.data := by
  unfold writeNoTruncate
  split <;> rfl

/-- On a cleanly parsing file, `remove` succeeds and leaves exactly the
serialization of the document without the removed id. -/
theorem remove_exact (d : FileScheme) (id : ArticleId) :
    remove (.exact d) id = (.ok (), .exact ⟨removeEntry id d.data⟩) := by
  simp [remove, parse_file_as_json, setLenToWritten_writeNoTruncate]

/-- Removing an absent key changes nothing. -/
theorem removeEntry_of_lookup_none (id : ArticleId) :
    ∀ d : Doc, lookupEntry id d = none → removeEntry id d = d := by
  intro d
  induction d with
  | nil => intro _; rfl
  | cons p rest ih =>
      intro h
      obtain ⟨k, v⟩ := p
      by_cases hk : k = id
      · subst hk
        simp [lookupEntry] at h
      · simp only [lookupEntry, if_neg hk] at h
        simp only [removeEntry, List.filter_cons, if_neg hk]
        simpa [removeEntry] using ih h

/-- After a removal the key is absent. -/
theorem lookupEntry_removeEntry_self (id : ArticleId) :
    ∀ d : Doc, lookupEntry id (removeEntry id d) = none := by
  intro d
  induction d with
  | nil => rfl
  | cons p rest ih =>
      obtain ⟨k, v⟩ := p
      by_cases hk : k = id
      · subst hk
        simpa [removeEntry, List.filter_cons] using ih
      · simp only [removeEntry, List.filter_cons, if_neg hk] at ih ⊢
        simpa [lookupEntry, hk] using ih

/-- Bindings after an insertion: the inserted one, or an old one. -/
theorem mem_insertEntry {k : ArticleId} {v : Article} {d : Doc}
    {p : ArticleId × Article} (hp : p ∈ insertEntry k v d) :
    p = (k, v) ∨ p ∈ d := by
  induction d with
  | nil => simpa [insertEntry] using hp
  | cons q rest ih =>
      obtain ⟨k1, v1⟩ := q
      by_cases h : k1 = k
      · subst h
        simp only [insertEntry, if_pos rfl] at hp
        rcases List.mem_cons.mp hp with h1 | h1
        · exact Or.inl h1
        · exact Or.inr (List.mem_cons_of_mem _ h1)
      · simp only [insertEntry, if_neg h] at hp
        rcases List.mem_cons.mp hp with h1 | h1
        · exact Or.inr (h1 ▸ List.mem_cons_self _ _)
        · rcases ih h1 with h2 | h2
          · exact Or.inl h2
          · exact Or.inr (List.mem_cons_of_mem _ h2)

/-- A cleanly parsing file is exactly the serialization of its document. -/
theorem eq_exact_of_parse_ok {st : FileBytes} {fs : FileScheme}
    (hparse : parse_file_as_json st = .ok fs) : st = .exact fs := by
  cases st with
  | exact d =>
      simp only [parse_file_as_json, Except.ok.injEq] at hparse
      rw [hparse]
  | garbled d e => simp [parse_file_as_json] at hparse

/-- Claim C1: the claim says both `set_entry` and `remove` leave a file that
parses cleanly when the new serialization is strictly shorter than the old
on-disk content.  The code satisfies it only for `remove`: this theorem
evaluates both operations on concrete shrinking scenarios built from the
fresh store, showing the `set_entry` overwrite reports success yet leaves a
file that no longer parses (stale trailing bytes), while `remove` of the
longer sibling truncates and the file parses back to the new document. -/
theorem C1_truncation_only_on_remove :
    (set_entry longState aId "x" "U").1 = .ok () ∧
    (serFileScheme ⟨docOf shrunkState⟩).length < fileLen longState ∧
    parse_file_as_json shrunkState = .error RepoError.decodeError ∧
    (remove siblingState aId).1 = .ok () ∧
    (serFileScheme ⟨docOf siblingRemovedState⟩).length < fileLen siblingState ∧
    parse_file_as_json siblingRemovedState = .ok ⟨[(bId, ⟨"V", "y", bId⟩)]⟩ := by
  refine ⟨rfl, by decide, rfl, rfl, by decide, rfl⟩

/-- Claim C2: the claim says decode and encode-and-persist happen inside one
exclusive critical section.  On the event traces of the source: during
`decodeJson` the write lock is not held (the read lock is), and only
`encodeAndWrite` happens under the write lock — the sequence is split into a
read-locked decode step and a write-locked persist step, for `set_entry`
and `remove` alike. -/
theorem C2_decode_outside_write_critical_section :
    writeLockHeldDuring setEntryTrace LockEvent.decodeJson = false ∧
    readLockHeldDuring setEntryTrace LockEvent.decodeJson = true ∧
    readLockHeldDuring setEntryTrace LockEvent.encodeAndWrite = false ∧
    writeLockHeldDuring setEntryTrace LockEvent.encodeAndWrite = true ∧
    writeLockHeldDuring removeTrace LockEvent.decodeJson = false ∧
    readLockHeldDuring removeTrace LockEvent.decodeJson = true ∧
    writeLockHeldDuring removeTrace LockEvent.encodeAndWrite = true := by
  decide

/-- Claim C3: the claim says every `set_entry(id, content)` followed
immediately by `read_snapshot(id)` returns `Ok` with that content.  Concrete
refutation: overwriting the ten-character content of `a` with `"x"` returns
`Ok`, but the immediate `read_snapshot` fails with the decode error, because
the shrinking write left stale trailing bytes. -/
theorem C3_round_trip_fails_after_shrinking_overwrite :
    (set_entry longState aId "x" "U").1 = .ok () ∧
    (read_snapshot shrunkState aId).1 = .error RepoError.decodeError :=
  ⟨rfl, rfl⟩

/-- Claim C4: the claim says `set_entry(id, c1)` then `set_entry(id, c2)`
then `read_snapshot(id)` yields content `c2` with the second timestamp.  The
in-memory document written by the second call does hold `(c2, now2)` — the
record is replaced, not preserved — but on this concrete shrinking overwrite
the immediate `read_snapshot` returns the decode error instead of that
record. -/
theorem C4_overwrite_read_back_fails_after_shrink :
    (set_entry emptyState aId "xxxxxxxxxx" "T").1 = .ok () ∧
    (set_entry longState aId "x" "U").1 = .ok () ∧
    lookupEntry aId (docOf shrunkState) = some ⟨"U", "x", aId⟩ ∧
    (read_snapshot shrunkState aId).1 = .error RepoError.decodeError :=
  ⟨rfl, rfl, rfl, rfl⟩

/-- Claim C5: on a cleanly parsing file, `read_snapshot` of an absent id
fails with exactly the not-found error — a constructor distinct from the
I/O, UTF-8 and decode errors — and of a present id returns `Ok` with the
stored record. -/
theorem C5_not_found_is_distinguished (st : FileBytes) (fs : FileScheme)
    (id : ArticleId) (hparse : parse_file_as_json st = .ok fs) :
    (lookupEntry id fs.data = none →
        (read_snapshot st id).1 = .error RepoError.notFound) ∧
    (∀ a, lookupEntry id fs.data = some a → (read_snapshot st id).1 = .ok a) ∧
    RepoError.notFound ≠ RepoError.ioError ∧
    RepoError.notFound ≠ RepoError.utf8Error ∧
    RepoError.notFound ≠ RepoError.decodeError := by
  refine ⟨?_, ?_, by decide, by decide, by decide⟩
  · intro hnone
    simp [read_snapshot, hparse, hnone]
  · intro a ha
    simp [read_snapshot, hparse, ha]

/-- Claim C5 witness: on the concrete one-entry store, reading the absent
id `b` yields the not-found error and reading the present id `a` yields its
record. -/
theorem C5_not_found_witness :
    (read_snapshot (.exact ⟨[(aId, ⟨"T", "xxxxxxxxxx", aId⟩)]⟩) bId).1
        = .error RepoError.notFound ∧
    (read_snapshot (.exact ⟨[(aId, ⟨"T", "xxxxxxxxxx", aId⟩)]⟩) aId).1
        = .ok ⟨"T", "xxxxxxxxxx", aId⟩ := by
  have h1 := C5_not_found_is_distinguished
    (.exact ⟨[(aId, ⟨"T", "xxxxxxxxxx", aId⟩)]⟩) ⟨[(aId, ⟨"T", "xxxxxxxxxx", aId⟩)]⟩ bId rfl
  have h2 := C5_not_found_is_distinguished
    (.exact ⟨[(aId, ⟨"T", "xxxxxxxxxx", aId⟩)]⟩) ⟨[(aId, ⟨"T", "xxxxxxxxxx", aId⟩)]⟩ aId rfl
  exact ⟨h1.1 rfl, h2.2.1 _ rfl⟩

/-- Claim C6: on a cleanly parsing file, removing an absent id succeeds and
leaves the file (hence the document) unchanged, and for every state and id,
removing twice leaves the same file state as removing once. -/
theorem C6_remove_is_idempotent (st : FileBytes) (fs : FileScheme)
    (id : ArticleId) (hparse : parse_file_as_json st = .ok fs)
    (habsent : lookupEntry id fs.data = none) :
    (remove st id).1 = .ok () ∧ (remove st id).2 = st ∧
      ∀ (st2 : FileBytes) (id2 : ArticleId),
        (remove (remove st2 id2).2 id2).2 = (remove st2 id2).2 := by
  have hst : st = .exact fs := eq_exact_of_parse_ok hparse
  subst hst
  refine ⟨?_, ?_, ?_⟩
  · rw [remove_exact]
  · rw [remove_exact]
    simp [removeEntry_of_lookup_none _ _ habsent]
  · intro st2 id2
    cases st2 with
    | garbled d e => simp [remove, parse_file_as_json]
    | exact d =>
        rw [remove_exact, remove_exact,
          removeEntry_of_lookup_none _ _ (lookupEntry_removeEntry_self id2 d.data)]

/-- Claim C6 witness: removing the absent id `a` from the fresh empty store
succeeds and leaves the file unchanged. -/
theorem C6_remove_is_idempotent_witness :
    (remove emptyState aId).1 = .ok () ∧ (remove emptyState aId).2 = emptyState := by
  have h := C6_remove_is_idempotent emptyState FileScheme.empty aId rfl rfl
  exact ⟨h.1, h.2.1⟩

/-- Claim C7: the claim says `exists` answers `Ok true` right after a
successful `set_entry` and `Ok false` right after a successful `remove`.
The `remove` half holds on the concrete scenario, but the `set_entry` half
fails: the shrinking overwrite of `a` reports success, after which `exists a`
returns the decode error, not `Ok true`. -/
theorem C7_exists_after_mutations :
    (set_entry longState aId "x" "U").1 = .ok () ∧
    (existsEntry shrunkState aId).1 = .error RepoError.decodeError ∧
    (remove longState aId).1 = .ok () ∧
    (existsEntry (remove longState aId).2 aId).1 = .ok false :=
  ⟨rfl, rfl, rfl, rfl⟩

/-- Claim C8: constructing over an absent file creates it holding exactly
the eleven characters of the serialized empty scheme, one wrapper key over
an empty mapping; constructing over an existing file leaves its content
unchanged, character for character. -/
theorem C8_new_default_file :
    newRepoFile none = some "\x7b\"data\":\x7b\x7d\x7d" ∧
      ∀ content : String, newRepoFile (some content) = some content :=
  ⟨rfl, fun _ => rfl⟩

/-- Claim C9: in every state reachable from the fresh store by `set_entry`
and `remove`, each mapping key stores an article whose `id` field equals
that key; both operations preserve the invariant ( `set_entry` stores the
inserted id itself in the record, `remove` only filters bindings out). -/
theorem C9_keys_mirror_ids (st : FileBytes) (h : Reachable st) :
    keysMirrorIds (docOf st) := by
  induction h with
  | init =>
      intro p hp
      simp [docOf, FileScheme.empty] at hp
  | set st id content now hr ih =>
      cases hst : parse_file_as_json st with
      | error e =>
          simpa [set_entry, hst] using ih
      | ok a =>
          have hd : st = .exact a := eq_exact_of_parse_ok hst
          subst hd
          simp only [set_entry, hst, docOf_writeNoTruncate]
          intro p hp
          rcases mem_insertEntry hp with rfl | hmem
          · rfl
          · exact ih p hmem
  | rem st id hr ih =>
      cases hst : parse_file_as_json st with
      | error e =>
          simpa [remove, hst] using ih
      | ok a =>
          have hd : st = .exact a := eq_exact_of_parse_ok hst
          subst hd
          rw [remove_exact]
          intro p hp
          exact ih p (List.mem_of_mem_filter hp)

/-- Claim C9 witness: the invariant holds at the concrete reachable state
produced by one insertion followed by one removal of a different id. -/
theorem C9_keys_mirror_ids_witness :
    keysMirrorIds (docOf (remove (set_entry emptyState aId "xxxxxxxxxx" "T").2 bId).2) :=
  C9_keys_mirror_ids _ (Reachable.rem _ bId (Reachable.set _ aId "xxxxxxxxxx" "T" Reachable.init))

/-- Claim C10: `read_snapshot` and `exists` only ever open the file
read-only inside `parse_file_as_json`; embedded as state transformers they
return the file state unchanged for every state and id, whether the call
succeeds or fails. -/
theorem C10_reads_leave_file_unchanged :
    ∀ (st : FileBytes) (id : ArticleId),
      (read_snapshot st id).2 = st ∧ (existsEntry st id).2 = st := by
  intro st id
  constructor
  · cases hst : parse_file_as_json st with
    | error e => simp [read_snapshot, hst]
    | ok a =>
        cases hl : lookupEntry id a.data with
        | none => simp [read_snapshot, hst, hl]
        | some art => simp [read_snapshot, hst, hl]
  · cases hst : parse_file_as_json st with
    | error e => simp [existsEntry, hst]
    | ok a => simp [existsEntry, hst]
